import Mathlib

/-
  Verification of `nest_elephant_tvb/Tvb/modify_tvb/co_simulation_paralelle/function_tvb.py`.

  The file under verification is a thin adapter over the external TVB
  (The Virtual Brain) simulation library.  We embed the adapter's code
  shallowly: numpy arrays become a shape/data structure over rationals,
  Python exceptions become an `Except PyErr` monad, and the external
  library's behaviour (its `Connectivity` constructor, `sim.run`, the
  global numpy random state) is modelled from the natural-language
  specification, since that code is not part of this repository's sources.
-/

namespace FunctionTvb

/-- Python exceptions visible at this adapter's boundary.  `external`
carries an arbitrary exception raised inside the external simulation
library. -/
inductive PyErr where
  | indexError
  | valueError
  | external (msg : String)
deriving Repr, DecidableEq

/-- A numpy n-dimensional array of numeric values (rationals stand in for
the floating-point payload, which the adapter only moves around and never
computes with). -/
structure NdArray where
  shape : List Nat
  data : List ℚ
deriving Repr, DecidableEq

/-- `a.shape[i]` : indexing the shape tuple, IndexError when out of range. -/
def shapeAt (a : NdArray) (i : Nat) : Except PyErr Nat :=
  match a.shape.get? i with
  | some n => .ok n
  | none => .error .indexError

/-- `len(a)` for a numpy array : the first element of the shape. -/
def pyLen (a : NdArray) : Except PyErr Nat :=
  match a.shape with
  | [] => .error .indexError
  | n :: _ => .ok n

/-- `np.reshape(a, s)` : succeeds exactly when the total size matches,
keeping the flat data. -/
def np_reshape (a : NdArray) (s : List Nat) : Except PyErr NdArray :=
  if a.data.length = s.prod then .ok ⟨s, a.data⟩ else .error .valueError

/-- A numpy array of fixed-width unicode strings: `itemsize` is the
element width in characters; any value stored is truncated to that
width, exactly as numpy's `<U·` dtypes do. -/
structure StrArray where
  itemsize : Nat
  data : List String
deriving Repr, DecidableEq

/-- `np.repeat([s], n)` : an array of `n` copies of `s`, whose dtype width
is the length of `s`. -/
def np_repeat_str (s : String) (n : Nat) : StrArray :=
  ⟨s.length, List.replicate n s⟩

/-- `a[i] = s` for one (possibly negative, Python-style) index:
IndexError outside the bounds, and the stored string is truncated to the
array's element width. -/
def StrArray.setOne (a : StrArray) (i : Int) (s : String) : Except PyErr StrArray :=
  let n : Int := a.data.length
  let j : Int := if i < 0 then i + n else i
  if 0 ≤ j ∧ j < n then
    .ok ⟨a.itemsize, a.data.set j.toNat (s.take a.itemsize)⟩
  else .error .indexError

/-- `a[idx] = s` : numpy fancy-index assignment over a list of indices. -/
def StrArray.setIndices (a : StrArray) (idx : List Int) (s : String) :
    Except PyErr StrArray :=
  idx.foldlM (fun acc i => acc.setOne i s) a

/-- The Wong-Wang neural-mass model (`lab.models.ReducedWongWang()`);
the adapter only constructs it with default parameters. -/
inductive ReducedWongWang where
  | mk
deriving Repr, DecidableEq

/-- The connectivity object of the external library, as configured by the
adapter. -/
structure Connectivity where
  region_labels : StrArray
  weights : NdArray
  speed : ℚ
  tract_lengths : NdArray
  centres : NdArray
deriving Repr, DecidableEq

/-- Modelled from the spec: the external library's `Connectivity`
constructor (`lab.connectivity.Connectivity`) is a pure construction that
"fails only if the external library rejects malformed shapes (e.g.,
weight/delay shape mismatch)"; it requires a square weight matrix and a
tract-length matrix of the same shape. -/
def Connectivity.make (labels : StrArray) (w : NdArray) (speed : ℚ)
    (tract : NdArray) (centres : NdArray) : Except PyErr Connectivity :=
  match w.shape with
  | [n, m] =>
      if n = m ∧ tract.shape = w.shape then
        .ok ⟨labels, w, speed, tract, centres⟩
      else .error (.external "shape mismatch")
  | _ => .error (.external "shape mismatch")

/-- `lab.coupling.Linear(a=...)`. -/
structure LinearCoupling where
  a : ℚ
deriving Repr, DecidableEq

/-- `lab.integrators.HeunDeterministic(...)` with its bounded state
variable configuration. -/
structure HeunDeterministic where
  dt : ℚ
  bounded_state_variable_indices : List Nat
  state_variable_boundaries : List (ℚ × ℚ)
deriving Repr, DecidableEq

/-- The tuple returned by `tvb_model`. -/
abbrev ModelTuple :=
  ReducedWongWang × Connectivity × LinearCoupling × HeunDeterministic × List Int

/-- `tvb_model(dt, weight, delay, id_proxy)` from the source: builds the
region-label array (all `'real'`, then fancy-assigns `'proxy'` at the
proxy indices), the Wong-Wang model, the connectivity, the linear
coupling with `a = 0.0154`, and the bounded Heun integrator. -/
def tvb_model (dt : ℚ) (weight delay : NdArray) (id_proxy : List Int) :
    Except PyErr ModelTuple := do
  let n ← pyLen weight
  let region_label ← (np_repeat_str "real" n).setIndices id_proxy "proxy"
  let populations := ReducedWongWang.mk
  let white_matter ← Connectivity.make region_label weight 1 delay
      ⟨[n, 3], List.replicate (n * 3) 1⟩
  let white_matter_coupling : LinearCoupling := ⟨77 / 5000⟩
  let heunint : HeunDeterministic := ⟨dt, [0], [(0, 1)]⟩
  .ok (populations, white_matter, white_matter_coupling, heunint, id_proxy)

/-- A monitor attached to the simulator: either the raw-state observer
(`lab.monitors.Raw(variables_of_interest=np.array(0))`) or the
co-simulation proxy monitor (`Interface_co_simulation(id_proxy=...,
time_synchronize=...)`). -/
inductive Monitor where
  | raw (variables_of_interest : Nat)
  | interface_co_simulation (id_proxy : List Int) (time_synchronize : ℚ)
deriving Repr, DecidableEq

/-- The external simulator handle as the adapter sees it: the
configuration it was built from, a `configured` flag set by
`sim.configure()`, and the simulated clock (modelled from the spec:
"each call advances that shared, mutable simulator state by one time
window"). -/
structure SimState where
  model : ReducedWongWang
  connectivity : Connectivity
  coupling : LinearCoupling
  integrator : HeunDeterministic
  monitors : List Monitor
  initial_conditions : Option NdArray
  configured : Bool
  clock : ℚ
deriving Repr, DecidableEq

/-- `sim.configure()` of the external library: marks the simulator ready
to run. -/
def SimState.configure (sim : SimState) : SimState :=
  { sim with configured := true }

/-- `tvb_init(parameters, time_synchronize, initial_condition)` from the
source: unpacks the parameter tuple, attaches the two monitors (raw
observer of state variable 0, and the proxy monitor over `id_proxy` with
the synchronization interval), builds the simulator and configures it. -/
def tvb_init (parameters : ModelTuple) (time_synchronize : ℚ)
    (initial_condition : Option NdArray) : SimState :=
  match parameters with
  | (model, connectivity, coupling, integrator, id_proxy) =>
    let monitors := [Monitor.raw 0,
                     Monitor.interface_co_simulation id_proxy time_synchronize]
    SimState.configure
      { model := model
        connectivity := connectivity
        coupling := coupling
        integrator := integrator
        monitors := monitors
        initial_conditions := initial_condition
        configured := false
        clock := 0 }

/-- The proxy-data container `[time_labels, values]` passed to the call
operator: a mutable two-element sequence of numpy arrays. -/
abbrev ProxyData := NdArray × NdArray

/-- The numerical engine of the external library, abstracted: given the
simulator state, the proxy data and the window length, it produces the
raw monitor's recorded sample, or raises whatever exception the library
raises (shape mismatch, invalid proxy index, numerical instability). -/
abbrev Dynamics := SimState → Option ProxyData → ℚ → Except PyErr NdArray

/-- Modelled from the spec: `sim.run(proxy_data=..., simulation_length=...)`
of the external library.  It advances the simulated clock by the window
length, and returns the list of per-monitor records whose first entry is
the raw monitor's `(timestamp, data)` sample, the timestamp being the
simulated time of that recorded sample; any failure of the numerical
engine propagates. -/
def SimState.run (dynamics : Dynamics) (sim : SimState)
    (proxy_data : Option ProxyData) (simulation_length : ℚ) :
    Except PyErr (List (ℚ × NdArray) × SimState) := do
  let d ← dynamics sim proxy_data simulation_length
  .ok ([(sim.clock + simulation_length, d)],
       { sim with clock := sim.clock + simulation_length })

/-- `xs[0]` on a Python list: IndexError when empty. -/
def pyFirst {α : Type} (xs : List α) : Except PyErr α :=
  match xs with
  | [] => .error .indexError
  | x :: _ => .ok x

/-- `a[:, 0]` on a numpy array: selects index 0 along the second axis,
IndexError when the array has fewer than two axes or the second axis is
empty. -/
def sliceCol0 (a : NdArray) : Except PyErr NdArray :=
  match a.shape with
  | d0 :: d1 :: rest =>
      if d1 = 0 then .error .indexError
      else
        let blk := rest.prod
        .ok ⟨d0 :: rest,
             (List.range d0).flatMap (fun i => (a.data.drop (i * (d1 * blk))).take blk)⟩
  | _ => .error .indexError

/-- The in-place mutation step of `tvb_simulation`:
`if data_proxy is not None: data_proxy[1] = np.reshape(data_proxy[1],
(shape[0], shape[1], 1, 1))`.  Returns the container as the caller
observes it after the statement (unchanged when the reshape raises,
since the exception occurs while evaluating the right-hand side). -/
def mutate_step (data_proxy : Option ProxyData) : Except PyErr (Option ProxyData) :=
  match data_proxy with
  | none => .ok none
  | some (labels, v) => do
      let s0 ← shapeAt v 0
      let s1 ← shapeAt v 1
      let v2 ← np_reshape v [s0, s1, 1, 1]
      .ok (some (labels, v2))

/-- The tail of `tvb_simulation` after the mutation step:
`result = sim.run(proxy_data=data_proxy, simulation_length=time);
time = result[0][0]; s = result[0][1][:, 0]; return time, s` (together
with the mutated simulator handle). -/
def run_and_extract (dynamics : Dynamics) (time : ℚ) (sim : SimState)
    (data_proxy : Option ProxyData) : Except PyErr (ℚ × NdArray × SimState) := do
  let rs ← SimState.run dynamics sim data_proxy time
  let first ← pyFirst rs.1
  let s ← sliceCol0 first.2
  .ok (first.1, s, rs.2)

/-- `tvb_simulation(time, sim, data_proxy)` from the source.  The first
component of the result is the caller's proxy-data container as observed
after the call (the source mutates it in place); the second is the
normal return `(time, s)` together with the advanced simulator, or the
propagated exception. -/
def tvb_simulation (dynamics : Dynamics) (time : ℚ) (sim : SimState)
    (data_proxy : Option ProxyData) :
    Option ProxyData × Except PyErr (ℚ × NdArray × SimState) :=
  match mutate_step data_proxy with
  | .error e => (data_proxy, .error e)
  | .ok dp2 => (dp2, run_and_extract dynamics time sim dp2)

/-- The adapter class `TvbSim`: node count excluding proxies, and the
configured simulator handle. -/
structure TvbSim where
  nb_node : Int
  sim : SimState
deriving Repr, DecidableEq

/-- `TvbSim.__init__(weight, delay, id_proxy, resolution_simulation,
time_synchronize, initial_condition)` from the source: sets `nb_node =
weight.shape[0] - len(id_proxy)`, builds the model tuple and initialises
the simulator. -/
def TvbSim.init (weight delay : NdArray) (id_proxy : List Int)
    (resolution_simulation time_synchronize : ℚ)
    (initial_condition : Option NdArray) : Except PyErr TvbSim := do
  let s0 ← shapeAt weight 0
  let nb_node : Int := (s0 : Int) - (id_proxy.length : Int)
  let model ← tvb_model resolution_simulation weight delay id_proxy
  let sim := tvb_init model time_synchronize initial_condition
  .ok ⟨nb_node, sim⟩

/-- `TvbSim.__call__(time, proxy_data)` from the source: delegates to
`tvb_simulation` on the held simulator and returns `(time, s_out)`; the
held simulator handle is mutated in place, which we model by returning
the updated adapter. -/
def TvbSim.call (dynamics : Dynamics) (self : TvbSim) (time : ℚ)
    (proxy_data : Option ProxyData) :
    Option ProxyData × Except PyErr (ℚ × NdArray × TvbSim) :=
  ((tvb_simulation dynamics time self.sim proxy_data).1,
   (tvb_simulation dynamics time self.sim proxy_data).2.map
      (fun r => (r.1, r.2.1, { self with sim := r.2.2 })))

/-- Modelled from the spec: the global numpy random state (`numpy.random`),
which is not part of this repository's sources.  Only its determinism
matters here: the state is a word reinitialised by `seed` and advanced by
each draw. -/
structure RandomState where
  state : Nat
deriving Repr, DecidableEq

/-- Modelled from the spec: `numpy.random.seed(s)` reinitialises the global
random state from the seed value alone, discarding whatever state was
there before. -/
def rgn_seed (seed : Nat) (_g : RandomState) : RandomState :=
  ⟨seed⟩

/-- Modelled from the spec: one draw from the global random state (a
linear-congruential stand-in for the generator; the claims only concern
determinism, not the distribution).  Arithmetic is on 32-bit words,
hence the explicit reduction modulo 2^32. -/
def rand_next (g : RandomState) : Nat × RandomState :=
  let s := (1664525 * g.state + 1013904223) % 4294967296
  (s, ⟨s⟩)

/-- The sequence of `n` successive draws from a random state. -/
def rand_draws : RandomState → Nat → List Nat
  | _, 0 => []
  | g, Nat.succ n =>
    match rand_next g with
    | (x, g2) => x :: rand_draws g2 n

/-- The module-level effect of importing the file: the top-level statement
`rgn.seed(42)` (source line 35) applied to whatever global random state
existed before the import. -/
def module_import (g : RandomState) : RandomState :=
  rgn_seed 42 g

/-- A concrete configured simulator, used to instantiate theorems on
explicit inputs. -/
def sampleSim : SimState :=
  { model := ReducedWongWang.mk
    connectivity := ⟨⟨4, ["real"]⟩, ⟨[1, 1], [0]⟩, 1, ⟨[1, 1], [0]⟩, ⟨[1, 3], [1, 1, 1]⟩⟩
    coupling := ⟨77 / 5000⟩
    integrator := ⟨1, [0], [(0, 1)]⟩
    monitors := [Monitor.raw 0, Monitor.interface_co_simulation [] 1]
    initial_conditions := none
    configured := true
    clock := 0 }

/-- A concrete numerical engine that always succeeds with a 1×1 raw
sample. -/
def dynOk : Dynamics := fun _ _ _ => .ok ⟨[1, 1], [2]⟩

/-- A concrete numerical engine that always raises, standing for an
exception (such as numerical instability) inside the external library. -/
def dynFail : Dynamics := fun _ _ _ => .error (.external "NaN in state")

/-- A concrete adapter instance over the sample simulator. -/
def sampleTvb : TvbSim := ⟨1, sampleSim⟩

/-
  Helper lemmas.
-/

lemma exceptBind_ok {α β : Type} (x : α) (f : α → Except PyErr β) :
    (Except.ok x >>= f) = f x := rfl

lemma exceptBind_error {α β : Type} (e : PyErr) (f : α → Except PyErr β) :
    ((Except.error e : Except PyErr α) >>= f) = .error e := rfl

lemma setOne_ok (a : StrArray) (i : Int) (s : String)
    (h0 : 0 ≤ i) (h1 : i < (a.data.length : Int)) :
    a.setOne i s = .ok ⟨a.itemsize, a.data.set i.toNat (s.take a.itemsize)⟩ := by
  have hni : ¬ i < 0 := not_lt.mpr h0
  simp only [StrArray.setOne, hni, if_false]
  rw [if_pos ⟨h0, h1⟩]

lemma setIndices_spec (idx : List Int) (a : StrArray) (s : String)
    (h : ∀ i ∈ idx, 0 ≤ i ∧ i < (a.data.length : Int)) :
    ∃ b, a.setIndices idx s = .ok b ∧ b.itemsize = a.itemsize ∧
      b.data.length = a.data.length ∧
      ∀ j : Nat, b.data.get? j =
        if (j : Int) ∈ idx then (a.data.get? j).map (fun _ => s.take a.itemsize)
        else a.data.get? j := by
  induction idx generalizing a with
  | nil =>
      refine ⟨a, rfl, rfl, rfl, ?_⟩
      intro j
      simp
  | cons i rest ih =>
      obtain ⟨hi0, hi1⟩ := h i (List.mem_cons_self i rest)
      have hstep := setOne_ok a i s hi0 hi1
      have hlen1 : (a.data.set i.toNat (s.take a.itemsize)).length = a.data.length := by
        simp
      have h1 : ∀ i2 ∈ rest, 0 ≤ i2 ∧
          i2 < (((⟨a.itemsize, a.data.set i.toNat (s.take a.itemsize)⟩ : StrArray)).data.length : Int) := by
        intro i2 hi2
        show 0 ≤ i2 ∧ i2 < ((a.data.set i.toNat (s.take a.itemsize)).length : Int)
        rw [hlen1]
        exact h i2 (List.mem_cons_of_mem _ hi2)
      obtain ⟨b, hb, hbi, hbl, hbg⟩ :=
        ih (⟨a.itemsize, a.data.set i.toNat (s.take a.itemsize)⟩ : StrArray) h1
      refine ⟨b, ?_, hbi, ?_, ?_⟩
      · show List.foldlM (fun acc i2 => acc.setOne i2 s) a (i :: rest) = .ok b
        rw [List.foldlM_cons, hstep, exceptBind_ok]
        exact hb
      · rw [hbl]
        exact hlen1
      · intro j
        have hj := hbg j
        by_cases hmem : (j : Int) ∈ rest
        · rw [if_pos hmem] at hj
          rw [if_pos (List.mem_cons_of_mem _ hmem)]
          rw [hj]
          rcases Nat.lt_or_ge j a.data.length with hlt | hge
          · have hlt2 : j < (a.data.set i.toNat (s.take a.itemsize)).length := by
              rw [hlen1]; exact hlt
            rw [List.get?_eq_get hlt, List.get?_eq_get hlt2]
            rfl
          · have hge2 : (a.data.set i.toNat (s.take a.itemsize)).length ≤ j := by
              rw [hlen1]; exact hge
            rw [List.get?_eq_none.mpr hge, List.get?_eq_none.mpr hge2]
        · by_cases hji : (j : Int) = i
          · have hjn : i.toNat = j := by
              have := congrArg Int.toNat hji
              simpa using this.symm
            rw [if_neg hmem] at hj
            rw [if_pos (by rw [List.mem_cons]; exact Or.inl hji)]
            rw [hj]
            show (a.data.set i.toNat (s.take a.itemsize)).get? j = _
            rw [hjn, List.get?_set_eq]
            rfl
          · rw [if_neg hmem] at hj
            rw [if_neg (by rw [List.mem_cons]; push_neg; exact ⟨hji, hmem⟩)]
            rw [hj]
            show (a.data.set i.toNat (s.take a.itemsize)).get? j = a.data.get? j
            refine List.get?_set_ne _ _ ?_
            intro hc
            exact hji (by rw [← hc, Int.toNat_of_nonneg hi0])

lemma tvb_model_ok (dt : ℚ) (weight delay : NdArray) (id_proxy : List Int) (n : Nat)
    (labels : StrArray)
    (hw : weight.shape = [n, n]) (hd : delay.shape = [n, n])
    (hlab : (np_repeat_str "real" n).setIndices id_proxy "proxy" = .ok labels) :
    tvb_model dt weight delay id_proxy =
      .ok (ReducedWongWang.mk,
           ⟨labels, weight, 1, delay, ⟨[n, 3], List.replicate (n * 3) 1⟩⟩,
           ⟨77 / 5000⟩, ⟨dt, [0], [(0, 1)]⟩, id_proxy) := by
  have hplen : pyLen weight = .ok n := by simp [pyLen, hw]
  have hconn : Connectivity.make labels weight 1 delay ⟨[n, 3], List.replicate (n * 3) 1⟩ =
      .ok ⟨labels, weight, 1, delay, ⟨[n, 3], List.replicate (n * 3) 1⟩⟩ := by
    simp [Connectivity.make, hw, hd]
  simp only [tvb_model, hplen, exceptBind_ok, hlab, hconn]

/-- Claim C1: for every weight matrix, delay matrix and proxy index
collection of consistent shapes (weight and delay both N×N, each proxy
index inside `0..N-1`), constructing `TvbSim` succeeds and sets
`nb_node = weight.shape[0] - len(id_proxy)`. -/
theorem C1_construction_nb_node (weight delay : NdArray) (id_proxy : List Int)
    (dt ts : ℚ) (ic : Option NdArray) (n : Nat)
    (hw : weight.shape = [n, n]) (hd : delay.shape = [n, n])
    (hp : ∀ i ∈ id_proxy, 0 ≤ i ∧ i < (n : Int)) :
    ∃ tv : TvbSim, TvbSim.init weight delay id_proxy dt ts ic = .ok tv ∧
      tv.nb_node = (n : Int) - (id_proxy.length : Int) := by
  have hlen : (np_repeat_str "real" n).data.length = n := by
    simp [np_repeat_str]
  have hp2 : ∀ i ∈ id_proxy, 0 ≤ i ∧ i < ((np_repeat_str "real" n).data.length : Int) := by
    intro i hi
    rw [hlen]
    exact hp i hi
  obtain ⟨labels, hlab, -, -, -⟩ := setIndices_spec id_proxy (np_repeat_str "real" n) "proxy" hp2
  have hshape : shapeAt weight 0 = .ok n := by simp [shapeAt, hw]
  have hmt := tvb_model_ok dt weight delay id_proxy n labels hw hd hlab
  refine ⟨⟨(n : Int) - (id_proxy.length : Int),
          tvb_init (ReducedWongWang.mk,
                    ⟨labels, weight, 1, delay, ⟨[n, 3], List.replicate (n * 3) 1⟩⟩,
                    ⟨77 / 5000⟩, ⟨dt, [0], [(0, 1)]⟩, id_proxy) ts ic⟩, ?_, rfl⟩
  simp only [TvbSim.init, hshape, exceptBind_ok, hmt]

/-- Claim C1 (witness): a concrete 2×2 system with one proxy region
constructs successfully with `nb_node = 2 - 1`. -/
theorem C1_construction_nb_node_witness :
    ∃ tv : TvbSim,
      TvbSim.init ⟨[2, 2], [0, 0, 0, 0]⟩ ⟨[2, 2], [0, 0, 0, 0]⟩ [0] 1 2 none = .ok tv ∧
      tv.nb_node = ((2 : Nat) : Int) - ((([0] : List Int).length : Nat) : Int) := by
  exact C1_construction_nb_node ⟨[2, 2], [0, 0, 0, 0]⟩ ⟨[2, 2], [0, 0, 0, 0]⟩ [0] 1 2 none 2
    rfl rfl (by decide)

/-- Claim C2 (counterexample): with one region and `id_proxy = [0]`, the
label stored at the proxy position is the string `"prox"`, not
`"proxy"`: the label array is created from `'real'` with a 4-character
element width, so numpy silently truncates the assigned `'proxy'`. -/
theorem C2_counterexample :
    (tvb_model 1 ⟨[1, 1], [0]⟩ ⟨[1, 1], [0]⟩ [0]).map
        (fun mt => mt.2.1.region_labels.data) = .ok ["prox"] ∧
    "prox" ≠ "proxy" := by
  exact ⟨rfl, by decide⟩

/-- Claim C2 (amended): for every weight matrix of N regions and proxy
index collection inside `0..N-1`, the region-label array built by
`tvb_model` has length N, with the value `"prox"` — the word `"proxy"`
truncated to the 4-character element width of the array created from
`"real"` — exactly at the positions listed in `id_proxy`, and `"real"`
at every other position. -/
theorem C2_region_labels (dt : ℚ) (weight delay : NdArray) (id_proxy : List Int) (n : Nat)
    (hw : weight.shape = [n, n]) (hd : delay.shape = [n, n])
    (hp : ∀ i ∈ id_proxy, 0 ≤ i ∧ i < (n : Int)) :
    ∃ mt : ModelTuple, tvb_model dt weight delay id_proxy = .ok mt ∧
      mt.2.1.region_labels.data.length = n ∧
      ∀ j : Nat, j < n →
        mt.2.1.region_labels.data.get? j =
          some (if (j : Int) ∈ id_proxy then "prox" else "real") := by
  have hlen : (np_repeat_str "real" n).data.length = n := by
    simp [np_repeat_str]
  have hp2 : ∀ i ∈ id_proxy, 0 ≤ i ∧ i < ((np_repeat_str "real" n).data.length : Int) := by
    intro i hi
    rw [hlen]
    exact hp i hi
  obtain ⟨labels, hlab, hli, hll, hlg⟩ :=
    setIndices_spec id_proxy (np_repeat_str "real" n) "proxy" hp2
  have hmt := tvb_model_ok dt weight delay id_proxy n labels hw hd hlab
  refine ⟨_, hmt, ?_, ?_⟩
  · show labels.data.length = n
    rw [hll, hlen]
  · intro j hj
    show labels.data.get? j = _
    have hrep : (np_repeat_str "real" n).data.get? j = some "real" := by
      rw [List.get?_eq_get (by simpa [np_repeat_str] using hj)]
      simp [np_repeat_str]
    have := hlg j
    by_cases hmem : (j : Int) ∈ id_proxy
    · rw [if_pos hmem] at this
      rw [if_pos hmem, this, hrep]
      rfl
    · rw [if_neg hmem] at this
      rw [if_neg hmem, this, hrep]

/-- Claim C2 (witness): a concrete 3-region system with `id_proxy = [1]`
has labels `real, prox, real`. -/
theorem C2_region_labels_witness :
    ∃ mt : ModelTuple,
      tvb_model 1 ⟨[3, 3], [0, 0, 0, 0, 0, 0, 0, 0, 0]⟩
          ⟨[3, 3], [0, 0, 0, 0, 0, 0, 0, 0, 0]⟩ [1] = .ok mt ∧
      mt.2.1.region_labels.data.length = 3 ∧
      ∀ j : Nat, j < 3 →
        mt.2.1.region_labels.data.get? j =
          some (if (j : Int) ∈ ([1] : List Int) then "prox" else "real") := by
  exact C2_region_labels 1 ⟨[3, 3], [0, 0, 0, 0, 0, 0, 0, 0, 0]⟩
    ⟨[3, 3], [0, 0, 0, 0, 0, 0, 0, 0, 0]⟩ [1] 3 rfl rfl (by decide)

lemma mutate_step_two_dim (labels v : NdArray) (S P : Nat)
    (hs : v.shape = [S, P]) (hlen : v.data.length = S * P) :
    mutate_step (some (labels, v)) = .ok (some (labels, ⟨[S, P, 1, 1], v.data⟩)) := by
  have h0 : shapeAt v 0 = .ok S := by simp [shapeAt, hs]
  have h1 : shapeAt v 1 = .ok P := by simp [shapeAt, hs]
  have h2 : np_reshape v [S, P, 1, 1] = .ok ⟨[S, P, 1, 1], v.data⟩ := by
    simp [np_reshape, hlen]
  simp only [mutate_step, h0, exceptBind_ok, h1, h2]

/-- Claim C3: when proxy data is supplied as a pair whose value array has
shape (S, P), the value array handed to the underlying simulator's run
call is that array reshaped to the 4-dimensional layout (S, P, 1, 1):
the run pipeline is invoked on the reshaped container. -/
theorem C3_run_receives_reshaped (dynamics : Dynamics) (time : ℚ) (sim : SimState)
    (labels v : NdArray) (S P : Nat)
    (hs : v.shape = [S, P]) (hlen : v.data.length = S * P) :
    (tvb_simulation dynamics time sim (some (labels, v))).2 =
      run_and_extract dynamics time sim
        (some (labels, (⟨[S, P, 1, 1], v.data⟩ : NdArray))) := by
  simp only [tvb_simulation, mutate_step_two_dim labels v S P hs hlen]

/-- Claim C3 (witness): a concrete (2, 1) value array is handed to the
run pipeline reshaped to (2, 1, 1, 1). -/
theorem C3_run_receives_reshaped_witness :
    (tvb_simulation dynOk 1 sampleSim (some (⟨[2], [0, 1]⟩, ⟨[2, 1], [5, 6]⟩))).2 =
      run_and_extract dynOk 1 sampleSim
        (some (⟨[2], [0, 1]⟩, (⟨[2, 1, 1, 1], [5, 6]⟩ : NdArray))) := by
  exact C3_run_receives_reshaped dynOk 1 sampleSim ⟨[2], [0, 1]⟩ ⟨[2, 1], [5, 6]⟩ 2 1
    rfl rfl

/-- Claim C4: when the adapter is called with `proxy_data = None`, the
reshape path is never taken — the mutation step is the identity and the
value `None` is passed through unchanged to the simulator's run call. -/
theorem C4_none_passthrough (dynamics : Dynamics) (time : ℚ) (sim : SimState) :
    tvb_simulation dynamics time sim none =
      (none, run_and_extract dynamics time sim none) ∧
    mutate_step none = .ok none :=
  ⟨rfl, rfl⟩

/-- Claim C9: when proxy data of shape (S, P) is supplied, the caller's
container is mutated in place — its element at index 1 becomes the
reshaped 4-dimensional array — and this is what the caller observes
after the call, for every behaviour of the numerical engine (including
an exception raised past the reshape). -/
theorem C9_container_mutation (dynamics : Dynamics) (time : ℚ) (sim : SimState)
    (labels v : NdArray) (S P : Nat)
    (hs : v.shape = [S, P]) (hlen : v.data.length = S * P) :
    (tvb_simulation dynamics time sim (some (labels, v))).1 =
      some (labels, ⟨[S, P, 1, 1], v.data⟩) := by
  simp only [tvb_simulation, mutate_step_two_dim labels v S P hs hlen]

/-- Claim C9 (witness): with an engine that raises, the caller still
observes the reshaped (2, 1, 1, 1) array in the container. -/
theorem C9_container_mutation_witness :
    (tvb_simulation dynFail 1 sampleSim (some (⟨[2], [0, 1]⟩, ⟨[2, 1], [5, 6]⟩))).1 =
      some (⟨[2], [0, 1]⟩, (⟨[2, 1, 1, 1], [5, 6]⟩ : NdArray)) := by
  exact C9_container_mutation dynFail 1 sampleSim ⟨[2], [0, 1]⟩ ⟨[2, 1], [5, 6]⟩ 2 1
    rfl rfl

lemma take_one_drop (l : List ℚ) (k : Nat) (h : k < l.length) :
    (l.drop k).take 1 = [l.getD k 0] := by
  rw [List.drop_eq_getElem_cons h, List.getD_eq_getElem l 0 h]
  rfl

lemma flatMap_take_one (V : Nat) (data : List ℚ) (hV : 0 < V) :
    ∀ R : Nat, R * V ≤ data.length →
      (List.range R).flatMap (fun i => (data.drop (i * V)).take 1) =
        (List.range R).map (fun i => data.getD (i * V) 0) := by
  intro R
  induction R with
  | zero => intro _; simp
  | succ R ih =>
      intro hR
      have hmul : (R + 1) * V = R * V + V := by ring
      have hR2 : R * V ≤ data.length := by omega
      have hRlt : R * V < data.length := by omega
      rw [List.range_succ, List.flatMap_append, List.map_append, ih hR2]
      congr 1
      simp only [List.flatMap_cons, List.flatMap_nil, List.append_nil,
                 List.map_cons, List.map_nil]
      rw [take_one_drop data (R * V) hRlt]

lemma sliceCol0_matrix (R V : Nat) (data : List ℚ) (hV : 0 < V)
    (hlen : data.length = R * V) :
    sliceCol0 ⟨[R, V], data⟩ =
      .ok ⟨[R], (List.range R).map (fun i => data.getD (i * V) 0)⟩ := by
  have hVne : V ≠ 0 := Nat.pos_iff_ne_zero.mp hV
  simp only [sliceCol0]
  rw [if_neg hVne]
  have harg : ∀ i : Nat, i * (V * List.prod []) = i * V := by
    intro i
    simp
  have hbody : (fun i => (data.drop (i * (V * List.prod ([] : List Nat)))).take (List.prod ([] : List Nat))) =
      (fun i => (data.drop (i * V)).take 1) := by
    funext i
    simp
  rw [hbody, flatMap_take_one V data hV R (le_of_eq hlen.symm)]

/-- Claim C5: whenever the adapter call returns, the returned state is
obtained from the simulator's result by taking the first recorded
observation of the first monitor and slicing out state-variable index 0
(`s = result[0][1][:, 0]`), discarding the other state variables and
modes, and the returned time is the simulated timestamp of that recorded
sample. -/
theorem C5_first_record_state (dynamics : Dynamics) (time : ℚ) (sim : SimState)
    (dp dp2 : Option ProxyData) (d : NdArray) (R V : Nat)
    (hmut : mutate_step dp = .ok dp2)
    (hdyn : dynamics sim dp2 time = .ok d)
    (hshape : d.shape = [R, V]) (hV : 0 < V) (hlen : d.data.length = R * V) :
    (tvb_simulation dynamics time sim dp).2 =
      .ok (sim.clock + time,
           ⟨[R], (List.range R).map (fun i => d.data.getD (i * V) 0)⟩,
           { sim with clock := sim.clock + time }) := by
  obtain ⟨sh, da⟩ := d
  obtain rfl : sh = [R, V] := hshape
  have hslice := sliceCol0_matrix R V da hV hlen
  simp only [tvb_simulation, hmut, run_and_extract, SimState.run, hdyn,
             exceptBind_ok, pyFirst, hslice]

/-- Claim C5 (witness): with a concrete engine producing a 1×1 raw
sample, the call returns the timestamp of the recorded sample and the
column-0 slice of its data. -/
theorem C5_first_record_state_witness :
    (tvb_simulation dynOk 1 sampleSim none).2 =
      .ok (sampleSim.clock + 1,
           ⟨[1], (List.range 1).map
              (fun i => (((⟨[1, 1], [2]⟩ : NdArray)).data.getD (i * 1) 0))⟩,
           { sampleSim with clock := sampleSim.clock + 1 }) := by
  exact C5_first_record_state dynOk 1 sampleSim none none ⟨[1, 1], [2]⟩ 1 1
    rfl rfl rfl (by decide) rfl

/-- Claim C6: the adapter contains no exception handling — an exception
raised by the external library, whether during a simulation step (the
numerical engine failing on the proxy data the run call received) or
during construction (the library rejecting the model/connectivity), is
re-raised by the adapter exactly as it was raised, neither caught nor
wrapped nor translated. -/
theorem C6_exception_propagation (dynamics : Dynamics) (time : ℚ) (sim : SimState)
    (dp dp2 : Option ProxyData) (e : PyErr)
    (weight delay : NdArray) (idp : List Int) (dt ts : ℚ) (ic : Option NdArray)
    (e2 : PyErr) (n : Nat)
    (hmut : mutate_step dp = .ok dp2)
    (hdyn : dynamics sim dp2 time = .error e)
    (hsh : shapeAt weight 0 = .ok n)
    (hm : tvb_model dt weight delay idp = .error e2) :
    (tvb_simulation dynamics time sim dp).2 = .error e ∧
    TvbSim.init weight delay idp dt ts ic = .error e2 := by
  constructor
  · simp only [tvb_simulation, hmut, run_and_extract, SimState.run, hdyn,
               exceptBind_error]
  · simp only [TvbSim.init, hsh, exceptBind_ok, hm, exceptBind_error]

/-- Claim C6 (witness): an engine failure surfaces unchanged from the
call path, and a shape-mismatch rejection raised by the external
library's connectivity constructor surfaces unchanged from
construction. -/
theorem C6_exception_propagation_witness :
    (tvb_simulation dynFail 1 sampleSim none).2 = .error (.external "NaN in state") ∧
    TvbSim.init ⟨[1, 2], [0, 0]⟩ ⟨[1, 2], [0, 0]⟩ [] 1 1 none =
      .error (.external "shape mismatch") := by
  exact C6_exception_propagation dynFail 1 sampleSim none none (.external "NaN in state")
    ⟨[1, 2], [0, 0]⟩ ⟨[1, 2], [0, 0]⟩ [] 1 1 none (.external "shape mismatch") 1
    rfl rfl rfl rfl

lemma run_and_extract_ok_clock (dynamics : Dynamics) (time : ℚ) (sim : SimState)
    (dp : Option ProxyData) (t : ℚ) (s : NdArray) (sim2 : SimState)
    (h : run_and_extract dynamics time sim dp = .ok (t, s, sim2)) :
    t = sim.clock + time ∧ sim2.clock = sim.clock + time := by
  unfold run_and_extract SimState.run at h
  cases hdyn : dynamics sim dp time with
  | error e =>
      rw [hdyn] at h
      simp only [exceptBind_error] at h
      exact absurd h (by simp)
  | ok d =>
      rw [hdyn] at h
      simp only [exceptBind_ok, pyFirst] at h
      cases hsl : sliceCol0 d with
      | error e =>
          rw [hsl] at h
          simp only [exceptBind_error] at h
          exact absurd h (by simp)
      | ok s0 =>
          rw [hsl] at h
          simp only [exceptBind_ok, Except.ok.injEq, Prod.mk.injEq] at h
          obtain ⟨h1, -, h3⟩ := h
          exact ⟨h1.symm, by rw [← h3]⟩

lemma tvb_simulation_ok_clock (dynamics : Dynamics) (time : ℚ) (sim : SimState)
    (dp : Option ProxyData) (t : ℚ) (s : NdArray) (sim2 : SimState)
    (h : (tvb_simulation dynamics time sim dp).2 = .ok (t, s, sim2)) :
    t = sim.clock + time ∧ sim2.clock = sim.clock + time := by
  unfold tvb_simulation at h
  cases hmut : mutate_step dp with
  | error e =>
      rw [hmut] at h
      exact absurd h (by simp)
  | ok dp2 =>
      rw [hmut] at h
      exact run_and_extract_ok_clock dynamics time sim dp2 t s sim2 h

lemma call_ok_clock (dynamics : Dynamics) (tv : TvbSim) (time : ℚ)
    (dp : Option ProxyData) (t : ℚ) (s : NdArray) (tv2 : TvbSim)
    (h : (TvbSim.call dynamics tv time dp).2 = .ok (t, s, tv2)) :
    t = tv.sim.clock + time ∧ tv2.sim.clock = tv.sim.clock + time := by
  unfold TvbSim.call at h
  cases hres : (tvb_simulation dynamics time tv.sim dp).2 with
  | error e =>
      rw [hres] at h
      exact absurd h (by simp [Except.map])
  | ok r =>
      rw [hres] at h
      obtain ⟨rt, rs, rsim⟩ := r
      simp only [Except.map, Except.ok.injEq, Prod.mk.injEq] at h
      obtain ⟨h1, -, h3⟩ := h
      have hc := tvb_simulation_ok_clock dynamics time tv.sim dp rt rs rsim hres
      refine ⟨h1 ▸ hc.1, ?_⟩
      rw [← h3]
      exact hc.2

/-- Claim C7: for two successive calls of the same adapter instance that
both return, first with `time = T1` and then with `time = T2` (a
nonnegative window), the simulated time advances monotonically: the time
returned by the second call is at least the time returned by the
first. -/
theorem C7_monotone_time (dynamics : Dynamics) (tv tv1 tv2 : TvbSim) (T1 T2 : ℚ)
    (dp1 dp2 : Option ProxyData) (t1 t2 : ℚ) (s1 s2 : NdArray)
    (hT2 : 0 ≤ T2)
    (h1 : (TvbSim.call dynamics tv T1 dp1).2 = .ok (t1, s1, tv1))
    (h2 : (TvbSim.call dynamics tv1 T2 dp2).2 = .ok (t2, s2, tv2)) :
    t1 ≤ t2 := by
  obtain ⟨e1, c1⟩ := call_ok_clock dynamics tv T1 dp1 t1 s1 tv1 h1
  obtain ⟨e2, -⟩ := call_ok_clock dynamics tv1 T2 dp2 t2 s2 tv2 h2
  rw [e1, e2, c1]
  linarith

/-- Claim C7 (witness): two concrete successive calls with windows 1 and
2 return times 0 + 1 and (0 + 1) + 2 respectively. -/
theorem C7_monotone_time_witness :
    ((0 : ℚ) + 1) ≤ (((0 : ℚ) + 1) + 2) := by
  refine C7_monotone_time dynOk sampleTvb
      ⟨1, { sampleSim with clock := (0 : ℚ) + 1 }⟩
      ⟨1, { sampleSim with clock := ((0 : ℚ) + 1) + 2 }⟩ 1 2 none none
      ((0 : ℚ) + 1) (((0 : ℚ) + 1) + 2) ⟨[1], [2]⟩ ⟨[1], [2]⟩ (by norm_num) ?_ ?_
  · rfl
  · rfl

/-- Claim C8: for every parameter tuple, synchronization interval and
initial condition, `tvb_init` attaches exactly two monitors to the
simulator — the raw observer of state-variable index 0 and the
`Interface_co_simulation` proxy monitor parameterized by the proxy index
set and the synchronization interval — and the simulator it returns has
been configured. -/
theorem C8_two_monitors (parameters : ModelTuple) (ts : ℚ) (ic : Option NdArray) :
    (tvb_init parameters ts ic).monitors =
      [Monitor.raw 0, Monitor.interface_co_simulation parameters.2.2.2.2 ts] ∧
    (tvb_init parameters ts ic).monitors.length = 2 ∧
    (tvb_init parameters ts ic).configured = true := by
  obtain ⟨m, c, cp, it, idp⟩ := parameters
  exact ⟨rfl, rfl, rfl⟩

/-- Claim C10: importing the module unconditionally applies
`rgn.seed(42)` to the global numpy random state, so any two program runs
that draw from the global state after the import observe the same random
sequence, whatever states the two runs started from. -/
theorem C10_import_seed_determinism (g1 g2 : RandomState) (nDraws : Nat) :
    module_import g1 = rgn_seed 42 g1 ∧
    module_import g1 = module_import g2 ∧
    rand_draws (module_import g1) nDraws = rand_draws (module_import g2) nDraws :=
  ⟨rfl, rfl, rfl⟩

end FunctionTvb
